import Mathlib

/-!
Verification of the AeroWizard flight-tracking and price-monitoring decision
engine against its natural-language specification.

The JavaScript sources are shallowly embedded:

* `PriceMonitor` models `src/services/priceMonitor.js` together with the alert
  operations of `src/services/database.js` (`updateAlertCheck`,
  `updateAlertPrice`, `addPriceHistory`, `cancelAlert`, `cleanupOldAlerts`,
  `getActiveAlerts`).  Prices are modelled as rationals (the JS code works on
  `parseFloat`ed numbers); `null`/absent numeric fields are `Option ℚ`;
  JavaScript truthiness on a nullable number (`null`, `0` are falsy) is made
  explicit by `jsTruthyOpt`.  The Firestore store is a list of alert records
  plus an append-only history list; a single-document update is a `List.map`
  that rewrites the documents whose `alert_id` matches.
* `FlightTracker` models `src/services/flightTracker.js` together with the
  track operations of `src/services/database.js` (`createFlightTrack`,
  `cancelFlightTrack`).  Timestamps are milliseconds since the epoch (`ℤ`),
  exactly the values JavaScript `Date` arithmetic produces on the ISO strings
  used by the code; JSON (de)serialisation of the stored status snapshot is
  abstracted by `LastStatusField` (absent / unparseable / parsed record).
  The JavaScript expression values flowing into `significantChanges` are kept
  faithful with a small `JSVal` type, because two of the array entries are
  non-boolean values compared with `=== true`.
* `Airline` models `findAirlineCode` of `src/index.js`.

External effects (Telegram sends, the Amadeus API) are inputs/outputs of the
embedded functions: a fetch result is a `FetchOutcome` argument, a decided
notification is a returned value, and the multi-segment creation flow returns
its ordered event trace.
-/

/-- Values a JavaScript subexpression can take in the places the embedded code
needs them: booleans, strings and `null`/`undefined` (collapsed, since the two
behave identically in every use below). -/
inductive JSVal where
  | bool : Bool → JSVal
  | str : String → JSVal
  | nullv : JSVal
deriving DecidableEq

/-- JavaScript truthiness of a `JSVal`: `false`, `""` and `null` are falsy. -/
def jsTruthy : JSVal → Bool
  | .bool b => b
  | .str s => decide (s ≠ "")
  | .nullv => false

/-- JavaScript `a && b`: returns `a` when `a` is falsy, otherwise `b`. -/
def jsAnd (a b : JSVal) : JSVal := if jsTruthy a then b else a

/-- JavaScript `a || b`: returns `a` when `a` is truthy, otherwise `b`. -/
def jsOr (a b : JSVal) : JSVal := if jsTruthy a then a else b

/-- A nullable string field as a `JSVal`. -/
def optToVal : Option String → JSVal
  | none => .nullv
  | some s => .str s

/-- JavaScript `v === true`. -/
def jsStrictTrue : JSVal → Bool
  | .bool true => true
  | _ => false

namespace PriceMonitor

/-- The notification reasons produced by `shouldNotifyUser`
(`src/services/priceMonitor.js`). -/
inductive Reason where
  | price_drop
  | price_increase
  | target_reached
  | significant_drop
  | first_check
deriving DecidableEq

/-- JavaScript truthiness of a nullable number: `null` and `0` are falsy,
every other number is truthy. -/
def jsTruthyOpt (p : Option ℚ) : Bool :=
  match p with
  | none => false
  | some x => decide (x ≠ 0)

/-- `shouldNotifyUser(alert, currentPrice, previousPrice)` from
`src/services/priceMonitor.js` (lines 118–155).  `minPrice` is
`alert.min_price`; the JS sequence of early returns becomes nested
conditionals, keeping the exact guard expressions including the truthiness
tests on `previousPrice`. -/
def shouldNotifyUser (minPrice currentPrice : ℚ) (previousPrice : Option ℚ) :
    Option Reason :=
  if minPrice = 0 ∧ jsTruthyOpt previousPrice = true ∧
      currentPrice ≠ previousPrice.getD 0 then
    some (if currentPrice < previousPrice.getD 0 then .price_drop else .price_increase)
  else if currentPrice ≤ minPrice then
    some .target_reached
  else if jsTruthyOpt previousPrice = true ∧ currentPrice < previousPrice.getD 0 then
    let dropAmount := previousPrice.getD 0 - currentPrice
    let dropPercentage := dropAmount / previousPrice.getD 0 * 100
    if dropAmount ≥ 50 ∧ dropPercentage ≥ 20 then
      some .significant_drop
    else if jsTruthyOpt previousPrice = false then
      some .first_check
    else
      none
  else if jsTruthyOpt previousPrice = false then
    some .first_check
  else
    none

/-- The decision procedure exactly as the specification's claim C1 words it
(rules 1–5, first match wins), with "a previous current price exists" read as
"the stored `current_price` is non-null". -/
def shouldNotifySpecClaim (minPrice currentPrice : ℚ) (previousPrice : Option ℚ) :
    Option Reason :=
  match previousPrice with
  | some prev =>
    if minPrice = 0 ∧ currentPrice ≠ prev then
      some (if currentPrice < prev then .price_drop else .price_increase)
    else if currentPrice ≤ minPrice then
      some .target_reached
    else if currentPrice < prev ∧ prev - currentPrice ≥ 50 ∧
        (prev - currentPrice) / prev * 100 ≥ 20 then
      some .significant_drop
    else
      none
  | none =>
    if currentPrice ≤ minPrice then some .target_reached else some .first_check

/-- The claim C1 decision procedure amended for the code's truthiness test: a
stored previous price of exactly `0` is treated as if no previous price
existed (rules 1 and 3 additionally require it to be nonzero, rule 4 also
fires when the stored previous price is zero). -/
def shouldNotifySpecAmended (minPrice currentPrice : ℚ) (previousPrice : Option ℚ) :
    Option Reason :=
  match previousPrice with
  | some prev =>
    if prev ≠ 0 ∧ minPrice = 0 ∧ currentPrice ≠ prev then
      some (if currentPrice < prev then .price_drop else .price_increase)
    else if currentPrice ≤ minPrice then
      some .target_reached
    else if prev ≠ 0 ∧ currentPrice < prev ∧ prev - currentPrice ≥ 50 ∧
        (prev - currentPrice) / prev * 100 ≥ 20 then
      some .significant_drop
    else if prev = 0 then
      some .first_check
    else
      none
  | none =>
    if currentPrice ≤ minPrice then some .target_reached else some .first_check

/-- A price-alert document as stored in a user's `flight_alerts` subcollection
(`src/services/database.js`).  `telegram_id` is the owning user (the path
component `users/{userId}`); nullable fields are `Option`s.  `last_checked`
is an abstract timestamp counter. -/
structure AlertRec where
  alert_id : Nat
  telegram_id : Nat
  origin : String
  destination : String
  departure_date : String
  return_date : Option String
  min_price : ℚ
  current_price : Option ℚ
  lowest_price : Option ℚ
  is_active : Bool
  last_checked : Option Nat
  booking_url : Option String
deriving DecidableEq

/-- A `price_history` document (`addPriceHistory` in
`src/services/database.js`): append-only. -/
structure HistoryEntry where
  userId : Nat
  alert_id : Nat
  price : ℚ
  airline : Option String
  booking_url : Option String
  timestamp : Nat
deriving DecidableEq

/-- The slice of the Firestore state the price monitor touches: all alert
documents (across all users) and the append-only price history. -/
structure PMDb where
  alerts : List AlertRec
  history : List HistoryEntry
deriving DecidableEq

/-- `getAlert(alertId)` from `src/services/database.js`: scan every user's
subcollection for the document with this id and return the first hit. -/
def getAlert (db : PMDb) (alertId : Nat) : Option AlertRec :=
  db.alerts.find? (fun a => a.alert_id = alertId)

/-- `updateAlertCheck(alertId, price)` from `src/services/database.js`
(lines 292–317): always refresh `last_checked`; write `current_price` only
when a non-null price is passed. -/
def updateAlertCheck (db : PMDb) (alertId : Nat) (price : Option ℚ) (now : Nat) :
    PMDb :=
  { db with
    alerts := db.alerts.map (fun a =>
      if a.alert_id = alertId then
        { a with
          last_checked := some now
          current_price := match price with
            | some p => some p
            | none => a.current_price }
      else a) }

/-- `updateAlertPrice(alertId, currentPrice, bookingUrl)` from
`src/services/database.js` (lines 355–398): re-fetch the alert, compute the
running minimum with the JS truthiness test `alert.lowest_price ? min : new`,
update the document and append a history entry (airline is passed as `null`
there). -/
def updateAlertPrice (db : PMDb) (alertId : Nat) (currentPrice : ℚ)
    (bookingUrl : Option String) (now : Nat) : PMDb :=
  match getAlert db alertId with
  | none => db
  | some alert =>
    let lowestPrice :=
      if jsTruthyOpt alert.lowest_price = true then
        min (alert.lowest_price.getD 0) currentPrice
      else currentPrice
    { alerts := db.alerts.map (fun a =>
        if a.alert_id = alertId then
          { a with
            current_price := some currentPrice
            lowest_price := some lowestPrice
            last_checked := some now
            booking_url := match bookingUrl with
              | some u => some u
              | none => a.booking_url }
        else a)
      history := db.history ++
        [⟨alert.telegram_id, alertId, currentPrice, none, bookingUrl, now⟩] }

/-- The outcome of `flightAPI.searchFlights` for one alert, as observed by
`checkSingleAlert`: the call threw, or it returned a list of offer prices
(already `parseFloat`ed; the empty list is the "no flights found" case). -/
inductive FetchOutcome where
  | apiError
  | offers : List ℚ → FetchOutcome

/-- The cheapest-offer scan of `checkSingleAlert` (lines 83–93): start from
the first offer and replace on strictly smaller price. -/
def cheapestPrice (first : ℚ) (rest : List ℚ) : ℚ :=
  rest.foldl (fun c p => if p < c then p else c) first

/-- `checkSingleAlert(alertId)` from `src/services/priceMonitor.js`
(lines 46–116), as a transition on the store: fetch the alert (missing ⇒
no-op), consume the search outcome; on error or empty results only
`updateAlertCheck(alertId, null)`; on success pick the cheapest price, decide
the notification against the previously stored price, then
`updateAlertPrice`.  The returned `Option Reason` is the notification that
`sendPriceAlert` would dispatch. -/
def checkSingleAlert (db : PMDb) (alertId : Nat) (fetched : FetchOutcome)
    (now : Nat) : PMDb × Option Reason :=
  match getAlert db alertId with
  | none => (db, none)
  | some alert =>
    match fetched with
    | .apiError => (updateAlertCheck db alertId none now, none)
    | .offers [] => (updateAlertCheck db alertId none now, none)
    | .offers (f :: fs) =>
      let cheapest := cheapestPrice f fs
      let previousPrice := alert.current_price
      let decision := shouldNotifyUser alert.min_price cheapest previousPrice
      (updateAlertPrice db alertId cheapest none now, decision)

/-- `cleanupOldAlerts()` from `src/services/database.js` (lines 774–803):
deactivate every active alert whose departure date is lexicographically
before today's ISO date. -/
def cleanupOldAlerts (db : PMDb) (today : String) : PMDb :=
  { db with
    alerts := db.alerts.map (fun a =>
      if a.is_active = true ∧ a.departure_date < today then
        { a with is_active := false }
      else a) }

/-- `getActiveAlerts()` from `src/services/database.js`: all active alert
documents (the `orderBy last_checked` staleness ordering is irrelevant to the
verified claims and is not modelled). -/
def getActiveAlerts (db : PMDb) : List AlertRec :=
  db.alerts.filter (fun a => a.is_active)

/-- The per-alert loop of `checkAllAlerts`: check each alert in turn,
recording the value of the `isRunning` flag observed when each single check
starts (the flag is threaded through unchanged, as in the source, where the
loop never touches it).  Per-alert errors are swallowed by `checkSingleAlert`
itself, so the loop always continues. -/
def runChecks (flag : Bool) (db : PMDb) (ids : List Nat)
    (outcomeOf : Nat → FetchOutcome) (now : Nat) : PMDb × List Bool :=
  match ids with
  | [] => (db, [])
  | id :: rest =>
    let db1 := (checkSingleAlert db id (outcomeOf id) now).1
    let r := runChecks flag db1 rest outcomeOf now
    (r.1, flag :: r.2)

/-- The observable result of one `checkAllAlerts()` invocation:
the `isRunning` flag after it returns, the final store, the alert ids it
checked, whether it fetched the active-alert list at all, and the flag value
observed at the start of each single-alert check. -/
structure CycleResult where
  running : Bool
  db : PMDb
  checked : List Nat
  fetched : Bool
  flagDuring : List Bool
deriving DecidableEq

/-- `checkAllAlerts()` from `src/services/priceMonitor.js` (lines 10–44):
return immediately when `isRunning` is already set; otherwise set the flag,
run cleanup, fetch the active alerts and check them one by one, and clear the
flag in `finally` — also when the body throws (`cleanupFails` models a thrown
error inside the `try`, swallowed by the `catch`). -/
def checkAllAlerts (isRunning : Bool) (db : PMDb) (cleanupFails : Bool)
    (today : String) (outcomeOf : Nat → FetchOutcome) (now : Nat) : CycleResult :=
  if isRunning then
    ⟨isRunning, db, [], false, []⟩
  else
    if cleanupFails then
      ⟨false, db, [], false, []⟩
    else
      let db1 := cleanupOldAlerts db today
      let ids := (getActiveAlerts db1).map (fun a => a.alert_id)
      let r := runChecks true db1 ids outcomeOf now
      ⟨false, r.1, ids, true, r.2⟩

/-- `cancelAlert(alertId, telegramId)` from `src/services/database.js`
(lines 418–459): look in the requesting user's own subcollection first; on a
miss search globally, reject when the owner (the `users/{userId}` path
segment) differs from the requester, otherwise soft-deactivate.  Thrown
errors are the `Except.error` branch; the caller's store is unchanged then. -/
def cancelAlert (db : PMDb) (alertId : Nat) (telegramId : Nat) :
    Except String PMDb :=
  match db.alerts.find? (fun a => a.telegram_id = telegramId ∧ a.alert_id = alertId) with
  | some _ =>
    .ok { db with
      alerts := db.alerts.map (fun a =>
        if a.telegram_id = telegramId ∧ a.alert_id = alertId then
          { a with is_active := false }
        else a) }
  | none =>
    match db.alerts.find? (fun a => a.alert_id = alertId) with
    | none => .error "Alert not found"
    | some a =>
      if a.telegram_id ≠ telegramId then
        .error "Alert not owned by user"
      else
        .ok { db with
          alerts := db.alerts.map (fun x =>
            if x.telegram_id = a.telegram_id ∧ x.alert_id = alertId then
              { x with is_active := false }
            else x) }

/-- The per-alert invariant of claim C3, as a decidable check: whenever both
`lowest_price` and `current_price` are set, `lowest_price ≤ current_price`. -/
def alertOk (a : AlertRec) : Bool :=
  match a.lowest_price, a.current_price with
  | some l, some c => decide (l ≤ c)
  | _, _ => true

/-- The store-wide invariant of claim C3. -/
def pmInvariant (db : PMDb) : Bool :=
  db.alerts.all alertOk

end PriceMonitor

namespace FlightTracker

/-- The fields of a stored status snapshot that `shouldNotifyUser`
(`src/services/flightTracker.js`, lines 141–177) reads back out of the parsed
JSON.  Every field is optional because the snapshot written at track-creation
time (`src/services/database.js`, lines 138–145) has no `flightDesignator`,
`scheduledDepartureTime` or `scheduledArrivalTime` keys at all — reading them
yields `undefined`, collapsed with `null` into `none` here (the only uses
below cannot distinguish the two).  Times and the checked-at stamp are epoch
milliseconds, the values JS `Date` arithmetic produces. -/
structure StoredStatus where
  designator : Option (String × String)
  scheduledDepartureTime : Option ℤ
  scheduledArrivalTime : Option ℤ
  terminal : Option String
  gate : Option String
  status : Option String
  checked : Option ℤ
deriving DecidableEq

/-- The `last_status` column: `null`, a string `JSON.parse` rejects, or a
successfully parsed snapshot. -/
inductive LastStatusField where
  | absent
  | unparseable
  | parsed : StoredStatus → LastStatusField
deriving DecidableEq

/-- A freshly fetched status object, as built by `getFlightStatus`
(`src/services/flightTracker.js`, lines 120–133): the designator is present,
times/terminal/gate may be `null`, `status` is a string, `checked` is the
fetch time. -/
structure FlightStatusRec where
  carrierCode : String
  flightNumber : String
  scheduledDepartureTime : Option ℤ
  scheduledArrivalTime : Option ℤ
  terminal : Option String
  gate : Option String
  status : String
  checked : ℤ
deriving DecidableEq

/-- `timeChangedSignificantly(time1, time2, minutesThreshold)`
(lines 180–188): `false` when either time is missing, otherwise compare the
absolute difference in minutes strictly against the threshold. -/
def timeChangedSignificantly (t1 t2 : Option ℤ) (minutesThreshold : ℚ) : Bool :=
  match t1, t2 with
  | some a, some b => decide (|((a : ℚ) - b) / (1000 * 60)| > minutesThreshold)
  | _, _ => false

/-- `daysSinceLastCheck(lastChecked)` (lines 191–198): `999` when no stamp is
stored, otherwise the (possibly fractional, possibly negative) number of days
between `now` and the stamp. -/
def daysSinceLastCheck (lastChecked : Option ℤ) (now : ℤ) : ℚ :=
  match lastChecked with
  | none => 999
  | some c => ((now : ℚ) - c) / (1000 * 60 * 60 * 24)

/-- The `significantChanges` comparison of `shouldNotifyUser`
(lines 155–176) for a parsed previous snapshot.  The terminal and gate
entries are JavaScript values `x !== y && (x || y)` — a boolean `false` or a
string/null — filtered by `.some(change => change === true)`; they are kept
as `JSVal`s so that semantics is preserved exactly. -/
def statusComparison (ls : StoredStatus) (cs : FlightStatusRec) (now : ℤ) : Bool :=
  let designatorChanged :=
    match ls.designator with
    | none => true
    | some d => decide (cs.carrierCode ≠ d.1) || decide (cs.flightNumber ≠ d.2)
  let departureChanged :=
    timeChangedSignificantly cs.scheduledDepartureTime ls.scheduledDepartureTime 10
  let arrivalChanged :=
    timeChangedSignificantly cs.scheduledArrivalTime ls.scheduledArrivalTime 10
  let terminalEntry :=
    jsStrictTrue (jsAnd (.bool (decide (cs.terminal ≠ ls.terminal)))
      (jsOr (optToVal cs.terminal) (optToVal ls.terminal)))
  let gateEntry :=
    jsStrictTrue (jsAnd (.bool (decide (cs.gate ≠ ls.gate)))
      (jsOr (optToVal cs.gate) (optToVal ls.gate)))
  let statusChanged :=
    match ls.status with
    | none => true
    | some s => decide (cs.status ≠ s)
  let heartbeat := decide (daysSinceLastCheck ls.checked now ≥ 1)
  designatorChanged || departureChanged || arrivalChanged ||
    terminalEntry || gateEntry || statusChanged || heartbeat

/-- `shouldNotifyUser(track, currentStatus)` from
`src/services/flightTracker.js` (lines 141–177), applied to the track's
`last_status` column: notify when no previous status is stored, when the
stored string does not parse, and otherwise according to the field-by-field
comparison. -/
def shouldNotifyUser (lastStatus : LastStatusField) (cs : FlightStatusRec)
    (now : ℤ) : Bool :=
  match lastStatus with
  | .absent => true
  | .unparseable => true
  | .parsed ls => statusComparison ls cs now

/-- The default snapshot serialised into `last_status` by the database's
`createFlightTrack` (`src/services/database.js`, lines 138–145), as
`shouldNotifyUser` later reads it back: status `"SCHEDULED"`, no designator
and no `scheduledDepartureTime`/`scheduledArrivalTime` keys (the snapshot
stores `departureTime`/`arrivalTime`, which that comparison never reads),
`null` terminal and gate, and a fresh checked stamp. -/
def defaultSnapshot (now : ℤ) : StoredStatus :=
  { designator := none
    scheduledDepartureTime := none
    scheduledArrivalTime := none
    terminal := none
    gate := none
    status := some "SCHEDULED"
    checked := some now }

/-- A flight-track document in a user's `flight_tracks` subcollection
(`src/services/database.js`).  `owner` is the `users/{userId}` path segment.
Carrier/number are nullable because flight-number-only tracking may create
them from optional fields. -/
structure TrackRec where
  track_id : Nat
  owner : Nat
  carrier_code : Option String
  flight_number : Option String
  date : String
  origin : Option String
  destination : Option String
  last_status : LastStatusField
  created_at : ℤ
  active : Bool
  is_segment : Bool
  segment_index : Option Nat
  parent_route : Option String
  cancelled_at : Option ℤ
deriving DecidableEq

/-- The argument object of the database's `createFlightTrack(trackData)`. -/
structure TrackData where
  userId : Nat
  carrierCode : Option String
  flightNumber : Option String
  date : String
  origin : Option String
  destination : Option String
  isSegment : Bool
  segmentIndex : Option Nat
  parentRoute : Option String
deriving DecidableEq

/-- `createFlightTrack(trackData)` from `src/services/database.js`
(lines 109–169): build the new document — active, with the serialised default
status snapshot — in the user's subcollection.  `trackId` is the fresh
Firestore document id, `now` the creation time. -/
def dbCreateFlightTrack (d : TrackData) (trackId : Nat) (now : ℤ) : TrackRec :=
  { track_id := trackId
    owner := d.userId
    carrier_code := d.carrierCode
    flight_number := d.flightNumber
    date := d.date
    origin := d.origin
    destination := d.destination
    last_status := .parsed (defaultSnapshot now)
    created_at := now
    active := true
    is_segment := d.isSegment
    segment_index := if d.isSegment then d.segmentIndex else none
    parent_route := if d.isSegment then d.parentRoute else none
    cancelled_at := none }

/-- One leg of a searched itinerary as passed to the tracker's
`createFlightTrack` (`segment.carrierCode`, `segment.flightNumber`,
`segment.departure.{iataCode,at}`, `segment.arrival.iataCode`). -/
structure SegmentInput where
  carrierCode : String
  flightNumber : String
  depAirport : String
  depAt : String
  arrAirport : String
deriving DecidableEq

/-- The `flightData` argument of the tracker's `createFlightTrack`. -/
structure MultiFlightData where
  origin : String
  destination : String
  date : String
  carrierCode : Option String
  flightNumber : Option String
  segments : List SegmentInput
deriving DecidableEq

/-- `new Date(s).toISOString().split('T')[0]` for an ISO-UTC datetime string:
the calendar-date part. -/
def isoDatePart (s : String) : String :=
  (s.splitOn "T").headD s

/-- The events of one tracker `createFlightTrack` call, in order: a document
creation, an awaited `checkSingleFlightStatus`, or the `setTimeout`-deferred
status check of the single-flight branch. -/
inductive TrackEvent where
  | created : TrackRec → TrackEvent
  | checked : Nat → TrackEvent
  | delayedCheck : Nat → TrackEvent
deriving DecidableEq

/-- The multi-segment loop of the tracker's `createFlightTrack`
(`src/services/flightTracker.js`, lines 412–442): for each segment in order,
create its track document (segment `i` gets index `i`, the shared
`parentRoute` key, and — for `i > 0` — the date derived from the segment's
departure time), then await `checkSingleFlightStatus` on it before moving to
the next segment.  `i` is the loop counter, `nextId` the next fresh id. -/
def trackSegmentsFrom (userId : Nat) (fd : MultiFlightData) (now : ℤ) :
    List SegmentInput → Nat → Nat → List TrackEvent
  | [], _, _ => []
  | seg :: rest, i, nextId =>
    let d : TrackData :=
      { userId := userId
        carrierCode := some seg.carrierCode
        flightNumber := some seg.flightNumber
        date := if i = 0 then fd.date else isoDatePart seg.depAt
        origin := some seg.depAirport
        destination := some seg.arrAirport
        isSegment := true
        segmentIndex := some i
        parentRoute := some (fd.origin ++ "-" ++ fd.destination) }
    .created (dbCreateFlightTrack d nextId now) :: .checked nextId ::
      trackSegmentsFrom userId fd now rest (i + 1) (nextId + 1)

/-- `createFlightTrack(chatId, userId, flightData)` from
`src/services/flightTracker.js` (lines 396–482), as its ordered event trace:
with more than one segment, the sequential create-then-check loop; otherwise
one document (origin/destination falling back to the first segment when the
top-level field is empty) whose initial status check is deferred with
`setTimeout`. -/
def createFlightTrack (userId : Nat) (fd : MultiFlightData) (nextId : Nat)
    (now : ℤ) : List TrackEvent :=
  if fd.segments.length > 1 then
    trackSegmentsFrom userId fd now fd.segments 0 nextId
  else
    let d : TrackData :=
      { userId := userId
        carrierCode := fd.carrierCode
        flightNumber := fd.flightNumber
        date := fd.date
        origin := if fd.origin ≠ "" then some fd.origin
          else (fd.segments.head?).map (fun s => s.depAirport)
        destination := if fd.destination ≠ "" then some fd.destination
          else (fd.segments.head?).map (fun s => s.arrAirport)
        isSegment := false
        segmentIndex := none
        parentRoute := none }
    [.created (dbCreateFlightTrack d nextId now), .delayedCheck nextId]

/-- The track documents created by an event trace, in creation order. -/
def createdRecordsOf (evs : List TrackEvent) : List TrackRec :=
  evs.filterMap (fun e =>
    match e with
    | .created r => some r
    | _ => none)

/-- `cancelFlightTrack(trackId, userId)` from `src/services/database.js`
(lines 716–772): look for the track in the requesting user's own
subcollection; on a miss search globally and reject (`false`, nothing
written) unless the owner path segment matches the requester; on success
soft-deactivate the document and stamp `cancelled_at`. -/
def cancelFlightTrack (db : List TrackRec) (trackId : Nat) (userId : Nat)
    (now : ℤ) : Bool × List TrackRec :=
  match db.find? (fun t => t.owner = userId ∧ t.track_id = trackId) with
  | some _ =>
    (true, db.map (fun t =>
      if t.owner = userId ∧ t.track_id = trackId then
        { t with active := false, cancelled_at := some now }
      else t))
  | none =>
    match db.find? (fun t => t.track_id = trackId) with
    | none => (false, db)
    | some t =>
      if t.owner ≠ userId then
        (false, db)
      else
        (true, db.map (fun x =>
          if x.owner = t.owner ∧ x.track_id = trackId then
            { x with active := false, cancelled_at := some now }
          else x))

end FlightTracker

namespace Airline

/-- Whether the character list `l` starts with `pat`. -/
def listStarts : List Char → List Char → Bool
  | _, [] => true
  | [], _ :: _ => false
  | a :: as, b :: bs => a = b && listStarts as bs

/-- Whether `pat` occurs contiguously inside `l` — JavaScript
`String.prototype.includes` on the underlying characters. -/
def listHasSub : List Char → List Char → Bool
  | l, pat =>
    match l with
    | [] => pat.isEmpty
    | _ :: rest => listStarts l pat || listHasSub rest pat

/-- `a.includes(b)` for strings. -/
def strIncludes (a b : String) : Bool :=
  listHasSub a.data b.data

/-- `s.toLowerCase()`, character-wise.  `Char.toLower` is the ASCII case
mapping, which coincides with the JS Unicode mapping exactly on ASCII
strings — the theorem about the whole resolver is therefore stated for
ASCII inputs only. -/
def strLower (s : String) : String :=
  ⟨s.data.map Char.toLower⟩

/-- `s.toUpperCase()`, character-wise; coincides with JS exactly on ASCII
strings (see `strLower`). -/
def strUpper (s : String) : String :=
  ⟨s.data.map Char.toUpper⟩

/-- The ASCII part of the whitespace class `String.prototype.trim` strips:
TAB, LF, VT, FF, CR and space.  (The non-ASCII members are outside the
ASCII-input scope of the resolver theorem.) -/
def jsSpace (c : Char) : Bool :=
  decide (c = ' ') || decide (c = '\t') || decide (c = '\n') ||
    decide (c = '\r') || decide (c = '\x0b') || decide (c = '\x0c')

/-- `s.trim()`: strip leading and trailing whitespace. -/
def strTrim (s : String) : String :=
  ⟨((s.data.dropWhile jsSpace).reverse.dropWhile jsSpace).reverse⟩

/-- The `commonAirlines` name→code table of `findAirlineCode`
(`src/index.js`, lines 60–79), in object-literal order. -/
def commonAirlines : List (String × String) :=
  [("american", "AA"), ("united", "UA"), ("delta", "DL"), ("southwest", "WN"),
   ("lufthansa", "LH"), ("air france", "AF"), ("british airways", "BA"),
   ("emirates", "EK"), ("qatar", "QR"), ("singapore", "SQ"),
   ("air india", "AI"), ("indigo", "6E"), ("vistara", "UK"),
   ("spicejet", "SG"), ("air canada", "AC"), ("klm", "KL"),
   ("turkish", "TK"), ("jetblue", "B6")]

/-- The own-key part of the property lookup `commonAirlines[normalizedName]`:
exact match against the object literal's own entries.  The full JS property
access also consults the prototype chain — see `commonAirlinesGet`. -/
def lookupExact : List (String × String) → String → Option String
  | [], _ => none
  | (name, code) :: rest, s =>
    if name = s then some code else lookupExact rest s

/-- What `findAirlineCode` can return: a string, or — when the property
access falls through to the prototype chain — the truthy non-string
`Object.prototype` member itself (the `constructor` function or the
`__proto__` object), which the JS `return commonAirlines[normalizedName]`
hands back unchanged. -/
inductive AirlineResult where
  | str : String → AirlineResult
  | protoObject : String → AirlineResult
deriving DecidableEq

/-- The truthy results of the JS property access
`commonAirlines[normalizedName]` on the object literal: an own entry's code
string, else an inherited `Object.prototype` member.  The key has already
been lowercased by the caller, and of the inherited member names
(`constructor`, `toString`, `valueOf`, `hasOwnProperty`, `isPrototypeOf`,
`propertyIsEnumerable`, `toLocaleString`, the annex-B getter/setter pairs
and `__proto__`) exactly `constructor` and `__proto__` are all-lowercase, so
only those two can be named by a lowercased key; both are truthy
non-strings.  `none` stands for an absent (hence falsy) property. -/
def commonAirlinesGet (key : String) : Option AirlineResult :=
  match lookupExact commonAirlines key with
  | some code => some (.str code)
  | none =>
    if key = "constructor" ∨ key = "__proto__" then some (.protoObject key)
    else none

/-- The `for (const [name, code] of Object.entries(commonAirlines))` loop of
`findAirlineCode`: the first entry whose name contains the input, taken only
for inputs longer than two characters. -/
def scanContaining : List (String × String) → String → Option String
  | [], _ => none
  | (name, code) :: rest, s =>
    if strIncludes name s = true ∧ s.length > 2 then some code
    else scanContaining rest s

/-- The `/^[A-Za-z0-9]{2}$/` character class. -/
def isAlphaNumChar (c : Char) : Bool :=
  ('a' ≤ c && c ≤ 'z') || ('A' ≤ c && c ≤ 'Z') || ('0' ≤ c && c ≤ '9')

/-- `findAirlineCode(airlineName)` from `src/index.js` (lines 58–105):
normalise (lowercase, trim); return a two-character alphanumeric input
uppercased immediately; else the property access
`commonAirlines[normalizedName]` (own entry, or truthy inherited
`Object.prototype` member, returned as-is); else first table name containing
the input (inputs of length > 2 only); else the original input uppercased. -/
def findAirlineCode (airlineName : String) : AirlineResult :=
  let normalized := strTrim (strLower airlineName)
  if normalized.length = 2 ∧ normalized.data.all isAlphaNumChar = true then
    .str (strUpper normalized)
  else
    match commonAirlinesGet normalized with
    | some v => v
    | none =>
      match scanContaining commonAirlines normalized with
      | some code => .str code
      | none => .str (strUpper airlineName)

/-- The resolution procedure exactly as the specification's claim C9 words
it: exact match first, then substring containment in either direction (input
in table name, or table name in input), finally the input itself uppercased
as a code — always a string. -/
def findAirlineCodeClaim (airlineName : String) : AirlineResult :=
  let normalized := strTrim (strLower airlineName)
  match lookupExact commonAirlines normalized with
  | some code => .str code
  | none =>
    match commonAirlines.find? (fun e =>
        strIncludes e.1 normalized || strIncludes normalized e.1) with
    | some e => .str e.2
    | none => .str (strUpper airlineName)

/-- Claim C9 amended to the code's behaviour: a two-character alphanumeric
input is returned uppercased as a code before any table lookup; an exact
own-key table match follows; an input whose normalisation is `constructor`
or `__proto__` then hits a truthy inherited `Object.prototype` member, and
the function returns that non-string object; containment is tested in one
direction only (the normalised input inside a table name) and only for
inputs longer than two characters; otherwise the input is returned
uppercased. -/
def findAirlineCodeAmended (airlineName : String) : AirlineResult :=
  let normalized := strTrim (strLower airlineName)
  if normalized.length = 2 ∧ normalized.data.all isAlphaNumChar = true then
    .str (strUpper normalized)
  else
    match lookupExact commonAirlines normalized with
    | some code => .str code
    | none =>
      if normalized = "constructor" ∨ normalized = "__proto__" then
        .protoObject normalized
      else if normalized.length > 2 then
        match commonAirlines.find? (fun e => strIncludes e.1 normalized) with
        | some e => .str e.2
        | none => .str (strUpper airlineName)
      else .str (strUpper airlineName)

end Airline

section NotificationRules

open PriceMonitor

/-- Claim C1 counterexample.  With target price `0`, a stored previous price
of exactly `0` and a new price `5`, rule 1 of the claimed precedence (target
zero, previous exists, prices differ) prescribes `price_increase`, but the
code's truthiness test `previousPrice &&` treats the stored `0` as absent and
returns `first_check`. -/
theorem claimC1_counterexample :
    shouldNotifyUser 0 5 (some 0) = some Reason.first_check ∧
    shouldNotifySpecClaim 0 5 (some 0) = some Reason.price_increase := by
  decide

/-- Claim C1 (amended).  The notification decision of `shouldNotifyUser`
follows the claimed precedence once "a previous price exists" is read as
"a previous price exists and is nonzero" in rules 1 and 3, and rule 4 also
fires when the stored previous price is zero: the code and the amended
rule-by-rule procedure agree on every input. -/
theorem claimC1_notification_precedence (m c : ℚ) (p : Option ℚ) :
    shouldNotifyUser m c p = shouldNotifySpecAmended m c p := by
  cases p with
  | none =>
    simp [shouldNotifyUser, shouldNotifySpecAmended, jsTruthyOpt]
  | some q =>
    by_cases hq : q = 0
    · subst hq
      simp [shouldNotifyUser, shouldNotifySpecAmended, jsTruthyOpt]
    · simp only [shouldNotifyUser, shouldNotifySpecAmended, jsTruthyOpt,
        Option.getD_some, decide_eq_true_eq, hq, ne_eq, not_false_eq_true,
        true_and, decide_not]
      split_ifs <;> tauto

/-- Claim C6 counterexample.  An alert with target `400` and no stored
previous price whose first successful check finds price `395` is notified
with reason `target_reached` (rule 2 fires before the first-observation
rule), not `first_check` as the claim states. -/
theorem claimC6_counterexample :
    shouldNotifyUser 400 395 none = some Reason.target_reached ∧
    shouldNotifyUser 400 395 none ≠ some Reason.first_check := by
  decide

/-- Claim C6 (amended).  For an alert with no previously stored current
price, any successfully fetched new price triggers a notification: with
reason `target_reached` when the new price is at or below the target, and
`first_check` otherwise. -/
theorem claimC6_first_check (m c : ℚ) :
    shouldNotifyUser m c none =
      some (if c ≤ m then Reason.target_reached else Reason.first_check) := by
  simp only [shouldNotifyUser, jsTruthyOpt]
  split_ifs <;> simp_all

end NotificationRules

section AlertStore

open PriceMonitor

/-- Rewriting the documents that match an id with an id-preserving update
commutes with looking the id up: the lookup returns the updated document. -/
theorem getAlert_map_update (l : List AlertRec) (alertId : Nat)
    (f : AlertRec → AlertRec) (hf : ∀ a, (f a).alert_id = a.alert_id) :
    (l.map (fun a => if a.alert_id = alertId then f a else a)).find?
        (fun a => a.alert_id = alertId) =
      (l.find? (fun a => a.alert_id = alertId)).map f := by
  induction l with
  | nil => rfl
  | cons a l ih =>
    by_cases h : a.alert_id = alertId
    · simp [List.find?, h, hf]
    · simp [List.find?, h, ih]

/-- A pointwise `alertOk`-preserving rewrite preserves the store invariant. -/
theorem allOk_map (l : List AlertRec) (g : AlertRec → AlertRec)
    (hg : ∀ a, alertOk a = true → alertOk (g a) = true)
    (h : l.all alertOk = true) : (l.map g).all alertOk = true := by
  rw [List.all_eq_true] at h ⊢
  intro x hx
  obtain ⟨b, hb, rfl⟩ := List.mem_map.mp hx
  exact hg b (h b hb)

/-- Updating only `last_checked` (and possibly copying `current_price` to
itself) keeps `alertOk`. -/
theorem alertOk_last_checked (a : AlertRec) (n : Nat)
    (h : alertOk a = true) :
    alertOk { a with last_checked := some n } = true := by
  simpa [alertOk] using h

/-- A document a guarded rewrite does not touch stays in the mapped list. -/
theorem mem_map_untouched (l : List AlertRec) (p : AlertRec → Prop)
    [DecidablePred p] (f : AlertRec → AlertRec) (a : AlertRec) (ha : a ∈ l)
    (hp : ¬ p a) : a ∈ l.map (fun x => if p x then f x else x) := by
  have hm := List.mem_map_of_mem (fun x => if p x then f x else x) ha
  simpa [hp] using hm

/-- Claim C4.  When the offer search for an alert throws or returns no
offers, `checkSingleAlert` sends no notification, appends no price-history
entry, leaves every other alert document untouched, and rewrites the alert
itself only in its `last_checked` field — `current_price` and `lowest_price`
keep their previous values. -/
theorem claimC4_failed_search_updates_only_lastChecked (db : PMDb)
    (alertId : Nat) (now : Nat) (alert : AlertRec)
    (h : getAlert db alertId = some alert) (fetched : FetchOutcome)
    (hfail : fetched = .apiError ∨ fetched = .offers []) :
    (checkSingleAlert db alertId fetched now).2 = none ∧
    (checkSingleAlert db alertId fetched now).1.history = db.history ∧
    getAlert (checkSingleAlert db alertId fetched now).1 alertId =
      some { alert with last_checked := some now } ∧
    ∀ a ∈ db.alerts, a.alert_id ≠ alertId →
      a ∈ (checkSingleAlert db alertId fetched now).1.alerts := by
  have hstep : checkSingleAlert db alertId fetched now =
      (updateAlertCheck db alertId none now, none) := by
    rcases hfail with rfl | rfl <;> simp [checkSingleAlert, h]
  rw [hstep]
  refine ⟨rfl, rfl, ?_, ?_⟩
  · show (db.alerts.map _).find? _ = _
    rw [getAlert_map_update db.alerts alertId
      (fun a => { a with last_checked := some now }) (fun _ => rfl)]
    rw [show db.alerts.find? (fun a => a.alert_id = alertId) = some alert from h]
    rfl
  · intro a ha hne
    exact mem_map_untouched _ _ _ a ha (by simpa using hne)

/-- Claim C4 witness: a concrete store on which the failed-search frame
property is discharged. -/
def exampleDbC4 : PMDb :=
  { alerts := [
      { alert_id := 2, telegram_id := 7, origin := "DEL", destination := "BOM"
        departure_date := "2099-01-02", return_date := none, min_price := 400
        current_price := some 450, lowest_price := some 420, is_active := true
        last_checked := some 1, booking_url := none },
      { alert_id := 3, telegram_id := 8, origin := "LHR", destination := "JFK"
        departure_date := "2099-02-02", return_date := none, min_price := 300
        current_price := none, lowest_price := none, is_active := true
        last_checked := none, booking_url := none }]
    history := [] }

/-- Claim C4, witnessed at a concrete store: an API failure for alert 2
leaves prices and history alone and only bumps `last_checked`. -/
theorem claimC4_witness :
    (checkSingleAlert exampleDbC4 2 .apiError 9).2 = none ∧
    (checkSingleAlert exampleDbC4 2 .apiError 9).1.history = exampleDbC4.history ∧
    getAlert (checkSingleAlert exampleDbC4 2 .apiError 9).1 2 =
      some { (exampleDbC4.alerts.get ⟨0, by decide⟩) with last_checked := some 9 } ∧
    ∀ a ∈ exampleDbC4.alerts, a.alert_id ≠ 2 →
      a ∈ (checkSingleAlert exampleDbC4 2 .apiError 9).1.alerts :=
  claimC4_failed_search_updates_only_lastChecked exampleDbC4 2 9
    (exampleDbC4.alerts.get ⟨0, by decide⟩) (by decide) .apiError (Or.inl rfl)

/-- The running-minimum write of `updateAlertPrice` always produces a
document satisfying `alertOk`, whatever the document held before. -/
theorem alertOk_price_write (a : AlertRec) (cp lw : ℚ) (n : Nat)
    (u : Option String) (hlw : lw ≤ cp) :
    alertOk { a with
      current_price := some cp
      lowest_price := some lw
      last_checked := some n
      booking_url := u } = true := by
  simpa [alertOk] using hlw

/-- `updateAlertCheck` preserves the store invariant. -/
theorem pmInvariant_updateAlertCheck (db : PMDb) (alertId : Nat) (now : Nat)
    (h : pmInvariant db = true) :
    pmInvariant (updateAlertCheck db alertId none now) = true := by
  refine allOk_map db.alerts _ ?_ h
  intro a ha
  by_cases hid : a.alert_id = alertId
  · simpa [hid] using alertOk_last_checked a now ha
  · simpa [hid] using ha

/-- `updateAlertPrice` establishes and preserves the store invariant. -/
theorem pmInvariant_updateAlertPrice (db : PMDb) (alertId : Nat) (cp : ℚ)
    (u : Option String) (now : Nat) (h : pmInvariant db = true) :
    pmInvariant (updateAlertPrice db alertId cp u now) = true := by
  unfold updateAlertPrice
  cases hga : getAlert db alertId with
  | none => exact h
  | some alert =>
    refine allOk_map db.alerts _ ?_ h
    intro a ha
    by_cases hid : a.alert_id = alertId
    · have hmin : (if jsTruthyOpt alert.lowest_price = true then
          min (alert.lowest_price.getD 0) cp else cp) ≤ cp := by
        split
        · exact min_le_right _ _
        · exact le_refl cp
      simpa [hid] using alertOk_price_write a cp _ now
        (match u with | some v => some v | none => a.booking_url) hmin
    · simpa [hid] using ha

/-- Claim C3 counterexample.  The claim says the stored `lowest_price`
becomes the minimum of the previously stored `lowest_price` and the new
price whenever a `lowest_price` was stored; but a stored `lowest_price` of
exactly `0` is falsy for the JS test `alert.lowest_price ?`, so a successful
check at price `5` stores `5`, not `min 0 5 = 0`. -/
def exampleDbC3 : PMDb :=
  { alerts := [
      { alert_id := 1, telegram_id := 7, origin := "DEL", destination := "BOM"
        departure_date := "2099-01-02", return_date := none, min_price := 100
        current_price := some 7, lowest_price := some 0, is_active := true
        last_checked := none, booking_url := none }]
    history := [] }

/-- Claim C3 counterexample (see `exampleDbC3`): after a successful check at
price `5`, the stored `lowest_price` is `5` although a `lowest_price` of `0`
was stored and `min 0 5 = 0 ≠ 5`. -/
theorem claimC3_counterexample :
    (getAlert (checkSingleAlert exampleDbC3 1 (.offers [5]) 3).1 1).map
        (fun a => a.lowest_price) = some (some 5) ∧
    ¬ (5 : ℚ) = min 0 5 := by
  constructor
  · rfl
  · decide

/-- Claim C3 (amended).  Every `checkSingleAlert` call preserves the store
invariant `lowest_price ≤ current_price` (whenever both are set), and on a
successful check the alert's new `current_price` is the fetched minimum
offer price while `lowest_price` becomes the minimum of the previously
stored `lowest_price` and the new price when a nonzero `lowest_price` was
stored, and the new price itself otherwise (none stored, or stored as the
falsy `0`). -/
theorem claimC3_invariant_lowest_le_current (db : PMDb) (alertId : Nat)
    (fetched : FetchOutcome) (now : Nat) (hinv : pmInvariant db = true) :
    pmInvariant (checkSingleAlert db alertId fetched now).1 = true ∧
    ∀ alert, getAlert db alertId = some alert →
      ∀ f fs, fetched = FetchOutcome.offers (f :: fs) →
        getAlert (checkSingleAlert db alertId fetched now).1 alertId =
          some { alert with
            current_price := some (cheapestPrice f fs)
            lowest_price := some (if jsTruthyOpt alert.lowest_price = true
              then min (alert.lowest_price.getD 0) (cheapestPrice f fs)
              else cheapestPrice f fs)
            last_checked := some now } := by
  constructor
  · unfold checkSingleAlert
    cases hga : getAlert db alertId with
    | none => exact hinv
    | some alert =>
      cases fetched with
      | apiError => exact pmInvariant_updateAlertCheck db alertId now hinv
      | offers l =>
        cases l with
        | nil => exact pmInvariant_updateAlertCheck db alertId now hinv
        | cons f fs =>
          exact pmInvariant_updateAlertPrice db alertId (cheapestPrice f fs)
            none now hinv
  · intro alert hga f fs hfetch
    subst hfetch
    have hstep : checkSingleAlert db alertId (.offers (f :: fs)) now =
        (updateAlertPrice db alertId (cheapestPrice f fs) none now,
         shouldNotifyUser alert.min_price (cheapestPrice f fs)
           alert.current_price) := by
      simp [checkSingleAlert, hga]
    rw [hstep]
    show getAlert (updateAlertPrice db alertId (cheapestPrice f fs) none now) alertId = _
    unfold updateAlertPrice
    rw [hga]
    show (db.alerts.map _).find? _ = _
    rw [getAlert_map_update db.alerts alertId]
    · rw [show db.alerts.find? (fun a => a.alert_id = alertId) = some alert from hga]
      rfl
    · exact fun _ => rfl

/-- Claim C3 witness store: alert 1 holds `lowest_price = 420 ≤
current_price = 450`. -/
def exampleDbC3w : PMDb :=
  { alerts := [
      { alert_id := 1, telegram_id := 9, origin := "BLR", destination := "SIN"
        departure_date := "2099-03-04", return_date := none, min_price := 200
        current_price := some 450, lowest_price := some 420, is_active := true
        last_checked := some 2, booking_url := none }]
    history := [] }

/-- Claim C3, witnessed: checking alert 1 of `exampleDbC3w` at offers `[380,
395]` keeps the invariant, and the stored pair becomes `current = 380`,
`lowest = min 420 380`. -/
theorem claimC3_witness :
    pmInvariant (checkSingleAlert exampleDbC3w 1 (.offers [380, 395]) 5).1 = true ∧
    getAlert (checkSingleAlert exampleDbC3w 1 (.offers [380, 395]) 5).1 1 =
      some { (exampleDbC3w.alerts.get ⟨0, by decide⟩) with
        current_price := some (cheapestPrice 380 [395])
        lowest_price := some (if jsTruthyOpt (some 420) = true
          then min ((some (420 : ℚ)).getD 0) (cheapestPrice 380 [395])
          else cheapestPrice 380 [395])
        last_checked := some 5 } :=
  ⟨(claimC3_invariant_lowest_le_current exampleDbC3w 1 (.offers [380, 395]) 5
      (by decide)).1,
   (claimC3_invariant_lowest_le_current exampleDbC3w 1 (.offers [380, 395]) 5
      (by decide)).2 (exampleDbC3w.alerts.get ⟨0, by decide⟩) (by decide) 380 [395] rfl⟩

end AlertStore

section Reentrancy

open PriceMonitor

/-- The per-alert loop records exactly the threaded flag value, once per
checked alert. -/
theorem runChecks_flags (flag : Bool) (db : PMDb) (ids : List Nat)
    (outcomeOf : Nat → FetchOutcome) (now : Nat) :
    (runChecks flag db ids outcomeOf now).2 = List.replicate ids.length flag := by
  induction ids generalizing db with
  | nil => rfl
  | cons id rest ih => simp [runChecks, ih, List.replicate_succ]

/-- Claim C5.  A `checkAllAlerts` invocation that observes the `isRunning`
flag set is a no-op: it returns with the store untouched, without fetching
the active alerts and without checking any alert, and leaves the flag set
for the invocation that owns it.  An invocation that acquires the flag
observes it set at the start of every single-alert check it runs and always
returns with the flag cleared — also when the cycle body fails. -/
theorem claimC5_checkAllAlerts_reentrancy (db : PMDb) (cleanupFails : Bool)
    (today : String) (outcomeOf : Nat → FetchOutcome) (now : Nat) :
    checkAllAlerts true db cleanupFails today outcomeOf now =
      ⟨true, db, [], false, []⟩ ∧
    (checkAllAlerts false db cleanupFails today outcomeOf now).running = false ∧
    ((checkAllAlerts false db cleanupFails today outcomeOf now).flagDuring).all
      (fun b => b) = true := by
  refine ⟨rfl, ?_, ?_⟩
  · cases cleanupFails <;> simp [checkAllAlerts]
  · cases cleanupFails
    · simp [checkAllAlerts, runChecks_flags, List.all_eq_true]
    · simp [checkAllAlerts]

end Reentrancy

section ScheduleChange

open FlightTracker

/-- The terminal/gate entries of `significantChanges` are JavaScript values
of the form `x !== y && (x || y)`; whatever the operands, the value is never
the boolean `true`, so `.some(change => change === true)` ignores them. -/
theorem jsEntry_never_true (b : Bool) (x y : Option String) :
    jsStrictTrue (jsAnd (.bool b) (jsOr (optToVal x) (optToVal y))) = false := by
  cases b
  · simp [jsAnd, jsTruthy, jsStrictTrue]
  · cases x <;> cases y <;>
      simp [jsAnd, jsOr, jsTruthy, optToVal, jsStrictTrue] <;> split_ifs <;> rfl

/-- An unchanged (or doubly missing) time never counts as significantly
changed. -/
theorem timeChanged_self (t : Option ℤ) (th : ℚ) (hth : 0 ≤ th) :
    timeChangedSignificantly t t th = false := by
  cases t with
  | none => rfl
  | some a =>
    simp only [timeChangedSignificantly, sub_self, zero_div, abs_zero,
      decide_eq_false_iff_not, gt_iff_lt, not_lt]
    exact hth

/-- The 10-minute departure/arrival comparison in milliseconds: the check
fires exactly when the two stamps differ by more than `600000` ms. -/
theorem timeChanged_iff_ms (a b : ℤ) :
    timeChangedSignificantly (some a) (some b) 10 = true ↔ 600000 < |a - b| := by
  simp only [timeChangedSignificantly, decide_eq_true_eq, gt_iff_lt]
  rw [abs_div, show |((1000 : ℚ) * 60)| = 60000 by norm_num,
    lt_div_iff₀ (by norm_num : (0 : ℚ) < 60000),
    show ((a : ℚ) - b) = ((a - b : ℤ) : ℚ) by push_cast; ring, ← Int.cast_abs]
  constructor
  · intro h
    exact_mod_cast (by linarith : (600000 : ℚ) < ((|a - b| : ℤ) : ℚ))
  · intro h
    have : (600000 : ℚ) < ((|a - b| : ℤ) : ℚ) := by exact_mod_cast h
    linarith

/-- A check stamp less than 24 hours old keeps the daily-heartbeat entry
quiet. -/
theorem heartbeat_quiet (c now : ℤ) (h : now - c < 86400000) :
    decide (daysSinceLastCheck (some c) now ≥ 1) = false := by
  simp only [daysSinceLastCheck, decide_eq_false_iff_not, ge_iff_le, not_le]
  rw [div_lt_one (by norm_num : (0 : ℚ) < 1000 * 60 * 60 * 24)]
  have : ((now : ℚ) - c) = ((now - c : ℤ) : ℚ) := by push_cast; ring
  rw [this]
  exact_mod_cast (by linarith : (now - c : ℤ) < 86400000)

/-- Claim C2.  For a track whose stored status snapshot parses and matches
the newly fetched status on designator, scheduled arrival, terminal, gate
and status, and whose last check is less than 24 hours old, the decision
reduces to the departure-time comparison: a shift of at most 10 minutes
(600000 ms) yields no notification, a shift of more than 10 minutes fires
one. -/
theorem claimC2_departure_shift_threshold (ls : StoredStatus)
    (cs : FlightStatusRec) (now d0 d1 c : ℤ)
    (hdes : ls.designator = some (cs.carrierCode, cs.flightNumber))
    (harr : ls.scheduledArrivalTime = cs.scheduledArrivalTime)
    (hterm : ls.terminal = cs.terminal) (hgate : ls.gate = cs.gate)
    (hstat : ls.status = some cs.status)
    (hchk : ls.checked = some c) (hfresh : now - c < 86400000)
    (hd0 : ls.scheduledDepartureTime = some d0)
    (hd1 : cs.scheduledDepartureTime = some d1) :
    (|d1 - d0| ≤ 600000 →
      shouldNotifyUser (.parsed ls) cs now = false) ∧
    (600000 < |d1 - d0| →
      shouldNotifyUser (.parsed ls) cs now = true) := by
  have hcomp : shouldNotifyUser (.parsed ls) cs now =
      timeChangedSignificantly cs.scheduledDepartureTime
        ls.scheduledDepartureTime 10 := by
    simp [shouldNotifyUser, statusComparison, hdes, harr, hterm, hgate, hstat,
      hchk, jsEntry_never_true, timeChanged_self _ _ (by norm_num : (0:ℚ) ≤ 10),
      heartbeat_quiet c now hfresh]
  rw [hcomp, hd0, hd1]
  constructor
  · intro hle
    rw [← Bool.not_eq_true, timeChanged_iff_ms]
    omega
  · intro hlt
    exact (timeChanged_iff_ms d1 d0).mpr hlt

/-- Claim C2 witness data: the stored snapshot with scheduled departure
`2024-12-25T10:00:00Z` (epoch ms `1735120800000`), checked about 13 minutes
before the new fetch. -/
def exampleStoredC2 : StoredStatus :=
  { designator := some ("AI", "101")
    scheduledDepartureTime := some 1735120800000
    scheduledArrivalTime := some 1735135200000
    terminal := some "3"
    gate := none
    status := some "SCHEDULED"
    checked := some 1735120000000 }

/-- A freshly fetched status shifted by `shift` milliseconds from the stored
departure, all other fields unchanged. -/
def exampleFetchedC2 (shift : ℤ) : FlightStatusRec :=
  { carrierCode := "AI"
    flightNumber := "101"
    scheduledDepartureTime := some (1735120800000 + shift)
    scheduledArrivalTime := some 1735135200000
    terminal := some "3"
    gate := none
    status := "SCHEDULED"
    checked := 1735121000000 }

/-- Claim C2, witnessed: a 5-minute shift (300000 ms) of the scheduled
departure does not notify, a 15-minute shift (900000 ms) does. -/
theorem claimC2_witness :
    shouldNotifyUser (.parsed exampleStoredC2) (exampleFetchedC2 300000)
      1735121000000 = false ∧
    shouldNotifyUser (.parsed exampleStoredC2) (exampleFetchedC2 900000)
      1735121000000 = true :=
  ⟨(claimC2_departure_shift_threshold exampleStoredC2 (exampleFetchedC2 300000)
      1735121000000 1735120800000 (1735120800000 + 300000) 1735120000000
      rfl rfl rfl rfl rfl rfl (by decide) rfl rfl).1 (by decide),
   (claimC2_departure_shift_threshold exampleStoredC2 (exampleFetchedC2 900000)
      1735121000000 1735120800000 (1735120800000 + 900000) 1735120000000
      rfl rfl rfl rfl rfl rfl (by decide) rfl rfl).2 (by decide)⟩

end ScheduleChange

section CreationAndOwnership

open FlightTracker PriceMonitor

/-- Claim C10.  Every track document built by the database's
`createFlightTrack` carries a non-null, parseable `last_status` — the
serialised default snapshot with status `"SCHEDULED"`, no scheduled
departure/arrival values, null terminal and gate and a fresh checked stamp —
so the tracker's `shouldNotifyUser` never takes its absent-status branch for
such a track: its result is exactly the field-by-field comparison against
the default snapshot. -/
theorem claimC10_created_track_has_default_status (d : TrackData)
    (trackId : Nat) (now : ℤ) :
    (dbCreateFlightTrack d trackId now).last_status ≠ LastStatusField.absent ∧
    (dbCreateFlightTrack d trackId now).last_status =
      LastStatusField.parsed (defaultSnapshot now) ∧
    (defaultSnapshot now).status = some "SCHEDULED" ∧
    (defaultSnapshot now).scheduledDepartureTime = none ∧
    (defaultSnapshot now).scheduledArrivalTime = none ∧
    (defaultSnapshot now).terminal = none ∧
    (defaultSnapshot now).gate = none ∧
    (defaultSnapshot now).checked = some now ∧
    ∀ (cs : FlightStatusRec) (t : ℤ),
      FlightTracker.shouldNotifyUser (dbCreateFlightTrack d trackId now).last_status cs t =
        statusComparison (defaultSnapshot now) cs t := by
  refine ⟨by simp [dbCreateFlightTrack], rfl, rfl, rfl, rfl, rfl, rfl, rfl,
    fun cs t => rfl⟩

/-- Claim C7.  Cancelling a flight track or a price alert that belongs to
user `o`: a request by a different user `u` fails — `cancelFlightTrack`
returns `false` with the store untouched, `cancelAlert` throws — while a
request by the owner succeeds and merely flips the target's active flag
(plus, for tracks, the `cancelled_at` stamp); no document is deleted. -/
theorem claimC7_cancel_requires_ownership (tdb : List TrackRec) (adb : PMDb)
    (trackId alertId : Nat) (u o : Nat) (now : ℤ)
    (htOwn : ∀ t ∈ tdb, t.track_id = trackId → t.owner = o)
    (htEx : ∃ t ∈ tdb, t.track_id = trackId)
    (haOwn : ∀ a ∈ adb.alerts, a.alert_id = alertId → a.telegram_id = o)
    (haEx : ∃ a ∈ adb.alerts, a.alert_id = alertId)
    (hne : u ≠ o) :
    cancelFlightTrack tdb trackId u now = (false, tdb) ∧
    cancelAlert adb alertId u = .error "Alert not owned by user" ∧
    cancelFlightTrack tdb trackId o now =
      (true, tdb.map (fun t =>
        if t.owner = o ∧ t.track_id = trackId then
          { t with active := false, cancelled_at := some now }
        else t)) ∧
    cancelAlert adb alertId o = .ok
      { adb with alerts := adb.alerts.map (fun a =>
          if a.telegram_id = o ∧ a.alert_id = alertId then
            { a with is_active := false }
          else a) } := by
  have htNoneU : tdb.find? (fun t => t.owner = u ∧ t.track_id = trackId) = none := by
    rw [List.find?_eq_none]
    intro t ht hcon
    obtain ⟨h1, h2⟩ := of_decide_eq_true hcon
    exact hne (h1.symm.trans (htOwn t ht h2))
  have haNoneU : adb.alerts.find?
      (fun a => a.telegram_id = u ∧ a.alert_id = alertId) = none := by
    rw [List.find?_eq_none]
    intro a ha hcon
    obtain ⟨h1, h2⟩ := of_decide_eq_true hcon
    exact hne (h1.symm.trans (haOwn a ha h2))
  have htSomeO : ∃ t, tdb.find? (fun t => t.owner = o ∧ t.track_id = trackId) = some t := by
    have : (tdb.find? (fun t => t.owner = o ∧ t.track_id = trackId)).isSome := by
      rw [List.find?_isSome]
      obtain ⟨t, ht, hti⟩ := htEx
      exact ⟨t, ht, by simp [htOwn t ht hti, hti]⟩
    exact Option.isSome_iff_exists.mp this
  have haSomeO : ∃ a, adb.alerts.find?
      (fun a => a.telegram_id = o ∧ a.alert_id = alertId) = some a := by
    have : (adb.alerts.find?
        (fun a => a.telegram_id = o ∧ a.alert_id = alertId)).isSome := by
      rw [List.find?_isSome]
      obtain ⟨a, ha, hai⟩ := haEx
      exact ⟨a, ha, by simp [haOwn a ha hai, hai]⟩
    exact Option.isSome_iff_exists.mp this
  simp only [Bool.decide_and] at htNoneU haNoneU
  refine ⟨?_, ?_, ?_, ?_⟩
  · rcases hglob : tdb.find? (fun t => t.track_id = trackId) with _ | t0
    · exfalso
      obtain ⟨t, ht, hti⟩ := htEx
      have := (List.find?_eq_none.mp hglob) t ht
      simp [hti] at this
    · have hid : t0.track_id = trackId := by
        have := List.find?_some hglob
        simpa using this
      have hmem := List.mem_of_find?_eq_some hglob
      have howner : t0.owner = o := htOwn t0 hmem hid
      simp [cancelFlightTrack, htNoneU, hglob, howner, Ne.symm hne]
  · rcases hglob : adb.alerts.find? (fun a => a.alert_id = alertId) with _ | a0
    · exfalso
      obtain ⟨a, ha, hai⟩ := haEx
      have := (List.find?_eq_none.mp hglob) a ha
      simp [hai] at this
    · have hid : a0.alert_id = alertId := by
        have := List.find?_some hglob
        simpa using this
      have hmem := List.mem_of_find?_eq_some hglob
      have howner : a0.telegram_id = o := haOwn a0 hmem hid
      simp [cancelAlert, haNoneU, hglob, howner, Ne.symm hne]
  · obtain ⟨t1, ht1⟩ := htSomeO
    simp only [Bool.decide_and] at ht1
    simp [cancelFlightTrack, ht1]
  · obtain ⟨a1, ha1⟩ := haSomeO
    simp only [Bool.decide_and] at ha1
    simp [cancelAlert, ha1]

/-- Claim C7 witness data: one flight track owned by user 1. -/
def exampleTracksC7 : List FlightTracker.TrackRec :=
  [{ track_id := 10, owner := 1, carrier_code := some "AI"
     flight_number := some "101", date := "2025-03-01", origin := some "DEL"
     destination := some "BOM"
     last_status := .parsed (FlightTracker.defaultSnapshot 0)
     created_at := 0, active := true, is_segment := false
     segment_index := none, parent_route := none, cancelled_at := none }]

/-- Claim C7 witness data: one price alert owned by user 1. -/
def exampleAlertsC7 : PMDb :=
  { alerts := [
      { alert_id := 20, telegram_id := 1, origin := "DEL", destination := "BOM"
        departure_date := "2099-05-05", return_date := none, min_price := 150
        current_price := some 200, lowest_price := some 180, is_active := true
        last_checked := some 4, booking_url := none }]
    history := [] }

/-- Claim C7, witnessed: user 2 cannot cancel user 1's track or alert (no
mutation), user 1 can (active flag flipped, nothing deleted). -/
theorem claimC7_witness :
    cancelFlightTrack exampleTracksC7 10 2 99 = (false, exampleTracksC7) ∧
    cancelAlert exampleAlertsC7 20 2 = .error "Alert not owned by user" ∧
    cancelFlightTrack exampleTracksC7 10 1 99 =
      (true, exampleTracksC7.map (fun t =>
        if t.owner = 1 ∧ t.track_id = 10 then
          { t with active := false, cancelled_at := some 99 }
        else t)) ∧
    cancelAlert exampleAlertsC7 20 1 = .ok
      { exampleAlertsC7 with alerts := exampleAlertsC7.alerts.map (fun a =>
          if a.telegram_id = 1 ∧ a.alert_id = 20 then
            { a with is_active := false }
          else a) } :=
  claimC7_cancel_requires_ownership exampleTracksC7 exampleAlertsC7 10 20 2 1 99
    (by decide) (by decide) (by decide) (by decide) (by decide)

end CreationAndOwnership

section MultiSegment

open FlightTracker

/-- The segment loop creates one track document per segment. -/
theorem trackSegments_created_length (userId : Nat) (fd : MultiFlightData)
    (now : ℤ) (segs : List SegmentInput) (i nextId : Nat) :
    (createdRecordsOf (trackSegmentsFrom userId fd now segs i nextId)).length =
      segs.length := by
  induction segs generalizing i nextId with
  | nil => rfl
  | cons s rest ih =>
    simpa [trackSegmentsFrom, createdRecordsOf] using ih (i + 1) (nextId + 1)

/-- The segment loop assigns consecutive segment indices starting at the
loop counter. -/
theorem trackSegments_indices (userId : Nat) (fd : MultiFlightData) (now : ℤ)
    (segs : List SegmentInput) (i nextId : Nat) :
    (createdRecordsOf (trackSegmentsFrom userId fd now segs i nextId)).map
        (fun r => r.segment_index) =
      (List.range' i segs.length).map some := by
  induction segs generalizing i nextId with
  | nil => rfl
  | cons s rest ih =>
    simp only [trackSegmentsFrom, createdRecordsOf, List.filterMap_cons,
      List.map_cons, List.range'_succ, dbCreateFlightTrack]
    exact congrArg (some i :: ·) (ih (i + 1) (nextId + 1))

/-- Every document the segment loop creates carries the shared parent-route
key. -/
theorem trackSegments_parent (userId : Nat) (fd : MultiFlightData) (now : ℤ)
    (segs : List SegmentInput) (i nextId : Nat) :
    ((createdRecordsOf (trackSegmentsFrom userId fd now segs i nextId)).all
      (fun r => r.parent_route = some (fd.origin ++ "-" ++ fd.destination))) =
      true := by
  induction segs generalizing i nextId with
  | nil => rfl
  | cons s rest ih =>
    simpa [trackSegmentsFrom, createdRecordsOf, dbCreateFlightTrack]
      using ih (i + 1) (nextId + 1)

/-- The segment loop's trace is exactly "create a document, then check it"
for each created document in order: every document is status-checked before
the next one is created. -/
theorem trackSegments_shape (userId : Nat) (fd : MultiFlightData) (now : ℤ)
    (segs : List SegmentInput) (i nextId : Nat) :
    trackSegmentsFrom userId fd now segs i nextId =
      (createdRecordsOf (trackSegmentsFrom userId fd now segs i nextId)).flatMap
        (fun r => [TrackEvent.created r, TrackEvent.checked r.track_id]) := by
  induction segs generalizing i nextId with
  | nil => rfl
  | cons s rest ih =>
    simp only [trackSegmentsFrom, createdRecordsOf, List.filterMap_cons,
      List.flatMap_cons]
    exact congrArg (fun l => TrackEvent.created _ :: TrackEvent.checked nextId :: l)
      (ih (i + 1) (nextId + 1))

/-- Claim C8.  Tracking a connecting itinerary with `n ≥ 2` segments creates
exactly `n` track documents with segment indices `0 … n-1`, all sharing the
parent-route key `origin-destination`, and the event trace is precisely
"create segment `i`'s document, status-check it" repeated in ascending
order — each document is checked via `checkSingleFlightStatus` before the
next one is created. -/
theorem claimC8_multisegment_creation (userId : Nat) (fd : MultiFlightData)
    (nextId : Nat) (now : ℤ) (h : 2 ≤ fd.segments.length) :
    (createdRecordsOf (createFlightTrack userId fd nextId now)).length =
      fd.segments.length ∧
    (createdRecordsOf (createFlightTrack userId fd nextId now)).map
        (fun r => r.segment_index) =
      (List.range fd.segments.length).map some ∧
    ((createdRecordsOf (createFlightTrack userId fd nextId now)).all
      (fun r => r.parent_route = some (fd.origin ++ "-" ++ fd.destination))) =
      true ∧
    createFlightTrack userId fd nextId now =
      (createdRecordsOf (createFlightTrack userId fd nextId now)).flatMap
        (fun r => [TrackEvent.created r, TrackEvent.checked r.track_id]) := by
  have hbranch : createFlightTrack userId fd nextId now =
      trackSegmentsFrom userId fd now fd.segments 0 nextId := by
    unfold createFlightTrack
    rw [if_pos (by omega : fd.segments.length > 1)]
  rw [hbranch]
  refine ⟨trackSegments_created_length userId fd now fd.segments 0 nextId, ?_,
    trackSegments_parent userId fd now fd.segments 0 nextId,
    trackSegments_shape userId fd now fd.segments 0 nextId⟩
  rw [trackSegments_indices userId fd now fd.segments 0 nextId,
    List.range_eq_range' fd.segments.length]

/-- Claim C8 witness data: a three-segment itinerary. -/
def exampleItinerary : MultiFlightData :=
  { origin := "DEL"
    destination := "JFK"
    date := "2025-03-01"
    carrierCode := none
    flightNumber := none
    segments := [
      { carrierCode := "AI", flightNumber := "101", depAirport := "DEL"
        depAt := "2025-03-01T02:00:00", arrAirport := "LHR" },
      { carrierCode := "BA", flightNumber := "117", depAirport := "LHR"
        depAt := "2025-03-01T11:00:00", arrAirport := "BOS" },
      { carrierCode := "B6", flightNumber := "817", depAirport := "BOS"
        depAt := "2025-03-01T19:00:00", arrAirport := "JFK" }] }

/-- Claim C8, witnessed on the three-segment itinerary: 3 documents, indices
`0,1,2`, one parent key, strict create-check interleaving. -/
theorem claimC8_witness :
    (createdRecordsOf (createFlightTrack 7 exampleItinerary 40 0)).length =
      exampleItinerary.segments.length ∧
    (createdRecordsOf (createFlightTrack 7 exampleItinerary 40 0)).map
        (fun r => r.segment_index) =
      (List.range exampleItinerary.segments.length).map some ∧
    ((createdRecordsOf (createFlightTrack 7 exampleItinerary 40 0)).all
      (fun r => r.parent_route =
        some (exampleItinerary.origin ++ "-" ++ exampleItinerary.destination))) =
      true ∧
    createFlightTrack 7 exampleItinerary 40 0 =
      (createdRecordsOf (createFlightTrack 7 exampleItinerary 40 0)).flatMap
        (fun r => [TrackEvent.created r, TrackEvent.checked r.track_id]) :=
  claimC8_multisegment_creation 7 exampleItinerary 40 0 (by decide)

end MultiSegment

section AirlineCodes

open Airline

/-- The entry-by-entry containment loop equals a guarded `find?` over the
table: the length test is invariant across entries. -/
theorem scanContaining_eq_find (l : List (String × String)) (s : String) :
    scanContaining l s =
      if s.length > 2 then
        (l.find? (fun e => strIncludes e.1 s)).map (fun e => e.2)
      else none := by
  induction l with
  | nil => simp [scanContaining]
  | cons e rest ih =>
    by_cases hl : s.length > 2
    · by_cases hc : strIncludes e.1 s = true
      · simp [scanContaining, List.find?, hc, hl]
      · simp only [scanContaining, List.find?, hc]
        rw [if_neg (by simp [hc, hl])]
        simpa [hl] using ih
    · simp only [scanContaining]
      rw [if_neg (by simp [hl])]
      simpa [hl] using ih

/-- Claim C9 counterexample.  On the input `"qatar airways"` the code
returns the fallback string `"QATAR AIRWAYS"` (no table name contains the
input), while the claimed either-direction containment would match the table
entry `"qatar"` — contained in the input — and return `"QR"`.  On the input
`"constructor"` the property access hits the inherited truthy
`Object.prototype.constructor`, and the code returns that non-string object
where the claim's procedure prescribes the string `"CONSTRUCTOR"`. -/
theorem claimC9_counterexample :
    findAirlineCode "qatar airways" = .str "QATAR AIRWAYS" ∧
    findAirlineCodeClaim "qatar airways" = .str "QR" ∧
    findAirlineCode "constructor" = .protoObject "constructor" ∧
    findAirlineCodeClaim "constructor" = .str "CONSTRUCTOR" := by
  refine ⟨by decide, by decide, by decide, by decide⟩

/-- Claim C9 (amended).  For every ASCII input — where the character-wise
case mapping and trimming below coincide with the JS `toLowerCase`,
`toUpperCase` and `trim` — `findAirlineCode` resolves an airline-name input
as: a two-character alphanumeric input is immediately returned uppercased as
a code; otherwise an exact own-key match against the static table; an input
normalising to `constructor` or `__proto__` then hits a truthy inherited
`Object.prototype` member, which is returned as-is (a non-string);
otherwise — only for inputs longer than two characters — the code of the
first table entry whose name contains the normalised input (one direction
only); otherwise the input itself uppercased. -/
theorem claimC9_airline_resolution (airlineName : String)
    (_hascii : airlineName.data.all (fun c => c.toNat ≤ 127) = true) :
    findAirlineCode airlineName = findAirlineCodeAmended airlineName := by
  unfold findAirlineCode findAirlineCodeAmended commonAirlinesGet
  by_cases h2 : (strTrim (strLower airlineName)).length = 2 ∧
      (strTrim (strLower airlineName)).data.all isAlphaNumChar = true
  · rw [if_pos h2, if_pos h2]
  · rw [if_neg h2, if_neg h2]
    cases lookupExact commonAirlines (strTrim (strLower airlineName)) with
    | some code => rfl
    | none =>
      by_cases hp : strTrim (strLower airlineName) = "constructor" ∨
          strTrim (strLower airlineName) = "__proto__"
      · rw [if_pos hp, if_pos hp]
      · rw [if_neg hp, if_neg hp]
        rw [scanContaining_eq_find]
        by_cases hl : (strTrim (strLower airlineName)).length > 2
        · rw [if_pos hl, if_pos hl]
          cases commonAirlines.find?
              (fun e => strIncludes e.1 (strTrim (strLower airlineName))) with
          | some e => rfl
          | none => rfl
        · rw [if_neg hl, if_neg hl]

/-- Claim C9, witnessed on concrete ASCII inputs: an exact-match hit
(`"Lufthansa"`) and a prototype-chain hit (`"constructor"`) both follow the
amended resolution. -/
theorem claimC9_witness :
    ("Lufthansa".data.all (fun c => c.toNat ≤ 127) = true) ∧
    findAirlineCode "Lufthansa" = findAirlineCodeAmended "Lufthansa" ∧
    findAirlineCode "constructor" = findAirlineCodeAmended "constructor" :=
  ⟨by decide, claimC9_airline_resolution "Lufthansa" (by decide),
   claimC9_airline_resolution "constructor" (by decide)⟩

end AirlineCodes
